import Mathlib

set_option maxRecDepth 8192

/-!
Verification development for the PN532 NFC driver protocol layer of this
repository (pn532_project/Pn532-nfc-hat-code/raspberrypi/python/pn532.py).

The Python driver is shallowly embedded as executable Lean functions over
lists of bytes (Nat, reduced mod 256 exactly where the Python code masks).
Device behaviour that the driver observes (readiness polls, I/O failures,
bytes produced by the bus) is supplied through explicit oracle parameters,
and the transport operations the driver performs are recorded in a trace so
that claims of the form "no transport access happens" can be stated.
-/

namespace PN532

/-- Python exception outcomes that the embedded driver code can raise:
IndexError (list subscript out of range), TypeError (subscripting or
unpacking None), RuntimeError and AssertionError with their messages. -/
inductive PyErr where
  | indexError : PyErr
  | typeError : PyErr
  | runtimeError (msg : String) : PyErr
  | assertionError (msg : String) : PyErr
deriving DecidableEq, Repr

/-- Python list subscript `l[i]`: the element when `i` is in range, and an
IndexError otherwise (negative indices never occur in the embedded code). -/
def pyGet (l : List Nat) (i : Nat) : Except PyErr Nat :=
  match l[i]? with
  | some v => Except.ok v
  | none => Except.error PyErr.indexError

/-- Python `(~x + 1) & 0xFF`, the two's complement of a byte value
(pn532.py line 666, the length checksum). -/
def tcomp (x : Nat) : Nat := (256 - x % 256) % 256

/-- Python `~x & 0xFF`, the one's complement of a value
(pn532.py line 671, the payload checksum byte actually written). -/
def ocomp (x : Nat) : Nat := 255 - x % 256

/-- Frame built by PN532_I2C.send_command (pn532.py lines 656-671) for the
payload `data` (which already starts with the 0xD4 direction byte): a
bytearray of len(data)+7 bytes holding preamble, the two start-code bytes,
the length field `len(data) + 1`, its two's-complement checksum, the payload,
the one's-complement payload checksum, and the residual zero byte of the
bytearray (index len(data)+6, never assigned). -/
def send_command_frame_i2c (data : List Nat) : List Nat :=
  [0x00, 0x00, 0xFF, data.length + 1, tcomp (data.length + 1)]
    ++ (data ++ [ocomp data.sum, 0x00])

/-- Frame built by PN532_SPI.send_command (pn532.py lines 477-497): identical
fields, allocated one byte longer (len(data)+8), with an explicit zero
postamble at index len(data)+6 and the residual zero at index len(data)+7. -/
def send_command_frame_spi (data : List Nat) : List Nat :=
  [0x00, 0x00, 0xFF, data.length + 1, tcomp (data.length + 1)]
    ++ (data ++ [ocomp data.sum, 0x00, 0x00])

/-- The ACK validation performed by call_function (pn532.py lines 610-612 for
I2C, 431-433 for SPI): the 6 bytes read are accepted iff the first three
equal 0x00 0x00 0xFF; bytes 3-5 are never inspected. -/
def ack_check (ack : List Nat) : Bool :=
  decide (ack.getD 0 0 = 0 ∧ ack.getD 1 0 = 0 ∧ ack.getD 2 0 = 255)

/-- A transport operation performed by the engine, recorded in traces:
a frame write (write_data), the recovery nudge (_wakeup), a readiness poll
(_wait_ready), or a read of `count` bytes (read_data). -/
inductive TOp where
  | write (frame : List Nat) : TOp
  | wake : TOp
  | poll : TOp
  | read (count : Nat) : TOp
deriving DecidableEq, Repr

/-- Device-side behaviour observed during one call_function invocation:
whether the frame write raises OSError (`sendOk = false`), the outcomes of
the two readiness waits, and the stream of bytes the bus yields to read_data
(`src i` is the i-th byte read during the call). The smbus read primitive is
modelled as total; no claim in scope concerns read-side I/O errors. -/
structure DevOracle where
  sendOk : Bool
  ackReady : Bool
  respReady : Bool
  src : Nat → Nat

/-- Response-frame parsing phase of PN532_I2C.call_function (pn532.py lines
619-654), starting after the second readiness wait. `src i` is the i-th byte
read during this phase. Returns the Python return value (`none` models the
early `return None` paths) together with the read_data operations performed:
a 3-byte header read, then a 2-byte length read, then a read of
`data_len + 2` further bytes, each only if the previous checks passed.
The returned payload is the Python slice `response[1 : 1 + data_len - 1]`. -/
def decode_response (src : Nat → Nat) : Option (List Nat) × List TOp :=
  if ¬ (src 0 = 0 ∧ src 1 = 0 ∧ src 2 = 255) then
    (none, [TOp.read 3])
  else if ¬ ((src 3 + src 4) % 256 = 0) then
    (none, [TOp.read 3, TOp.read 2])
  else
    let dataLen := src 3
    let response := (List.range (dataLen + 2)).map (fun i => src (5 + i))
    if ¬ ((response.take (dataLen + 1)).sum % 256 = 0) then
      (none, [TOp.read 3, TOp.read 2, TOp.read (dataLen + 2)])
    else
      (some ((response.drop 1).take (dataLen - 1)),
        [TOp.read 3, TOp.read 2, TOp.read (dataLen + 2)])

/-- PN532_I2C.call_function (pn532.py lines 578-654). Builds the payload
0xD4 :: command & 0xFF :: params, runs send_command (whose assert raises
AssertionError before any transport access when the payload length is out of
range 2..254), then the send / ACK-wait / ACK-read / response-wait /
response-read sequence, recording every transport operation. `Except.ok
none` models the Python `return None` failure paths; the write operation
records the frame whose transmission was attempted. -/
def call_function_i2c (command : Nat) (params : List Nat) (o : DevOracle) :
    Except PyErr (Option (List Nat)) × List TOp :=
  let data := 0xD4 :: command % 256 :: params
  if ¬ (1 < data.length ∧ data.length < 255) then
    (Except.error (PyErr.assertionError "Data must be array of 1 to 255 bytes."), [])
  else
    let frame := send_command_frame_i2c data
    if o.sendOk = false then
      (Except.ok none, [TOp.write frame, TOp.wake])
    else if o.ackReady = false then
      (Except.ok none, [TOp.write frame, TOp.poll])
    else if ack_check ((List.range 6).map o.src) = false then
      (Except.ok none, [TOp.write frame, TOp.poll, TOp.read 6])
    else if o.respReady = false then
      (Except.ok none, [TOp.write frame, TOp.poll, TOp.read 6, TOp.poll])
    else
      let r := decode_response (fun i => o.src (6 + i))
      (Except.ok r.1, [TOp.write frame, TOp.poll, TOp.read 6, TOp.poll] ++ r.2)

/-- Response-reading phase of PN532_SPI.call_function (pn532.py lines
440-475), entered after the ACK check and the second readiness wait both
passed. The header transfer `xfer2([DATAREAD, 0, 0, 0])[1:]` yields exactly
three bytes (`src 0..2`); the code then evaluates `frame[3]` and `frame[4]`.
`src2` supplies the bytes of the subsequent large transfer (lines 460-462);
that code is unreachable because the header list has length 3. -/
def spi_response_phase (response_length : Nat) (src src2 : Nat → Nat) :
    Except PyErr (Option (List Nat)) :=
  let frame := [src 0, src 1, src 2]
  if ¬ (frame.getD 0 0 = 0 ∧ frame.getD 1 0 = 0 ∧ frame.getD 2 0 = 255) then
    Except.ok none
  else do
    let dataLen ← pyGet frame 3
    let lc ← pyGet frame 4
    if (dataLen + lc) % 256 ≠ 0 then
      pure none
    else
      let maxRead := min (response_length + 6) (dataLen + 6)
      let response := (List.range (maxRead - 4)).map src2
      let checksum ← (List.range (dataLen + 1)).foldlM
        (fun acc i => do
          let b ← pyGet response (5 + i)
          pure (acc + b)) 0
      if checksum % 256 ≠ 0 then
        pure none
      else
        pure (some ((response.drop 6).take dataLen))

/-- Decoding step of PN532.read_passive_target (pn532.py lines 143-152),
applied to the value call_function returned: propagate `None`, require
target count 1 (`response[0]`), a UID length of at most 7 (`response[5]`),
and return the UID slice `response[6 : 6 + response[5]]`. -/
def read_passive_target_decode (response : Option (List Nat)) :
    Except PyErr (Option (List Nat)) :=
  match response with
  | none => Except.ok none
  | some r =>
    match pyGet r 0 with
    | Except.error e => Except.error e
    | Except.ok t =>
      if t ≠ 0x01 then
        Except.error (PyErr.runtimeError "More than one card detected!")
      else
        match pyGet r 5 with
        | Except.error e => Except.error e
        | Except.ok u =>
          if 7 < u then
            Except.error (PyErr.runtimeError "Found card with unexpectedly long UID!")
          else
            Except.ok (some ((r.drop 6).take u))

/-- PN532.read_passive_target (pn532.py lines 133-152) over the I2C engine:
the InListPassiveTarget call with params [0x01, card_baud] followed by the
decoding step. -/
def read_passive_target (card_baud : Nat) (o : DevOracle) :
    Except PyErr (Option (List Nat)) × List TOp :=
  let c := call_function_i2c 0x4A [0x01, card_baud] o
  match c.1 with
  | Except.error e => (Except.error e, c.2)
  | Except.ok r => (read_passive_target_decode r, c.2)

/-- PN532.get_passive_mifare (pn532.py lines 340-350): read_passive_target
with the default baud profile, returning None or (len(uid), uid). -/
def get_passive_mifare (o : DevOracle) :
    Except PyErr (Option (Nat × List Nat)) × List TOp :=
  let r := read_passive_target 0x00 o
  match r.1 with
  | Except.error e => (Except.error e, r.2)
  | Except.ok none => (Except.ok none, r.2)
  | Except.ok (some response) => (Except.ok (some (response.length, response)), r.2)

/-- Decoding step of PN532.get_firmware_version (pn532.py lines 116-124),
applied to the value call_function returned: RuntimeError when it is None,
otherwise the tuple (response[0], response[1], response[2], response[3]),
where each subscript raises IndexError if the response is shorter. -/
def get_firmware_version_decode (response : Option (List Nat)) :
    Except PyErr (Nat × Nat × Nat × Nat) :=
  match response with
  | none => Except.error (PyErr.runtimeError "Failed to get firmware version!")
  | some r => do
    let a ← pyGet r 0
    let b ← pyGet r 1
    let c ← pyGet r 2
    let d ← pyGet r 3
    pure (a, b, c, d)

/-- PN532.read_mifare (pn532.py lines 154-195) over the I2C engine. `os k`
is the device behaviour for the k-th call_function invocation (0: the
passive-target discovery inside get_passive_mifare, 1: authentication,
2: the read exchange). Unpacking the None result of get_passive_mifare and
evaluating `response[0]` when call_function returned None are both Python
TypeErrors. -/
def read_mifare (block_number key_number : Nat) (key : List Nat)
    (os : Nat → DevOracle) : Except PyErr (List Nat) × List TOp :=
  let key0 := if key = [] then [255, 255, 255, 255, 255, 255] else key
  let g := get_passive_mifare (os 0)
  match g.1 with
  | Except.error e => (Except.error e, g.2)
  | Except.ok none => (Except.error PyErr.typeError, g.2)
  | Except.ok (some uidpair) =>
    let key_cmd := (if key_number = 0 then 0x60 else 0x61) :: block_number
      :: (key0 ++ uidpair.2)
    let c1 := call_function_i2c 0x40 (0x01 :: key_cmd) (os 1)
    match c1.1 with
    | Except.error e => (Except.error e, g.2 ++ c1.2)
    | Except.ok none => (Except.error PyErr.typeError, g.2 ++ c1.2)
    | Except.ok (some r1) =>
      match pyGet r1 0 with
      | Except.error e => (Except.error e, g.2 ++ c1.2)
      | Except.ok v1 =>
        if v1 ≠ 0 then
          (Except.error (PyErr.runtimeError "Failed to authenticate card"), g.2 ++ c1.2)
        else
          let c2 := call_function_i2c 0x40 [0x01, 0x30, block_number] (os 2)
          match c2.1 with
          | Except.error e => (Except.error e, g.2 ++ c1.2 ++ c2.2)
          | Except.ok none => (Except.error PyErr.typeError, g.2 ++ c1.2 ++ c2.2)
          | Except.ok (some r2) =>
            match pyGet r2 0 with
            | Except.error e => (Except.error e, g.2 ++ c1.2 ++ c2.2)
            | Except.ok v2 =>
              if v2 ≠ 0 then
                (Except.error (PyErr.runtimeError "Failed to read data"),
                  g.2 ++ c1.2 ++ c2.2)
              else
                (Except.ok (r2.drop 1), g.2 ++ c1.2 ++ c2.2)

/-- PN532.write_mifare (pn532.py lines 197-241) over the I2C engine. The
assert on the data length (line 214) is the first statement and raises
AssertionError before any transport access. Oracle indexing as in
read_mifare, with index 2 the write exchange. -/
def write_mifare (block_number : Nat) (data : List Nat) (key_number : Nat)
    (key : List Nat) (os : Nat → DevOracle) : Except PyErr Bool × List TOp :=
  if ¬ (data ≠ [] ∧ data.length = 16) then
    (Except.error (PyErr.assertionError "Data must be an array of 16 bytes!"), [])
  else
    let key0 := if key = [] then [255, 255, 255, 255, 255, 255] else key
    let g := get_passive_mifare (os 0)
    match g.1 with
    | Except.error e => (Except.error e, g.2)
    | Except.ok none => (Except.error PyErr.typeError, g.2)
    | Except.ok (some uidpair) =>
      let key_cmd := (if key_number = 0 then 0x60 else 0x61) :: block_number
        :: (key0 ++ uidpair.2)
      let c1 := call_function_i2c 0x40 (0x01 :: key_cmd) (os 1)
      match c1.1 with
      | Except.error e => (Except.error e, g.2 ++ c1.2)
      | Except.ok none => (Except.error PyErr.typeError, g.2 ++ c1.2)
      | Except.ok (some r1) =>
        match pyGet r1 0 with
        | Except.error e => (Except.error e, g.2 ++ c1.2)
        | Except.ok v1 =>
          if v1 ≠ 0 then
            (Except.error (PyErr.runtimeError "Failed to authenticate card"),
              g.2 ++ c1.2)
          else
            let c2 := call_function_i2c 0x40
              (0x01 :: 0xA0 :: block_number :: data) (os 2)
            match c2.1 with
            | Except.error e => (Except.error e, g.2 ++ c1.2 ++ c2.2)
            | Except.ok none => (Except.error PyErr.typeError, g.2 ++ c1.2 ++ c2.2)
            | Except.ok (some r2) =>
              match pyGet r2 0 with
              | Except.error e => (Except.error e, g.2 ++ c1.2 ++ c2.2)
              | Except.ok v2 =>
                if v2 ≠ 0 then
                  (Except.error (PyErr.runtimeError "Failed to write data"),
                    g.2 ++ c1.2 ++ c2.2)
                else
                  (Except.ok true, g.2 ++ c1.2 ++ c2.2)

/-- PN532.write_ntag2xx (pn532.py lines 268-293) over the I2C engine: the
assert on the 4-byte data length and the user-page range check
(NTAG2XX_USER_START_PAGE = 4, NTAG2XX_USER_END_PAGE = 129) both run before
any transport access. -/
def write_ntag2xx (block_number : Nat) (data : List Nat)
    (os : Nat → DevOracle) : Except PyErr Bool × List TOp :=
  if ¬ (data ≠ [] ∧ data.length = 4) then
    (Except.error (PyErr.assertionError "Data must be an array of 4 bytes!"), [])
  else if block_number < 4 ∨ 129 < block_number then
    (Except.error (PyErr.runtimeError "Block must be user block4..129"), [])
  else
    let c := call_function_i2c 0x40 (0x01 :: 0xA2 :: block_number :: data) (os 0)
    match c.1 with
    | Except.error e => (Except.error e, c.2)
    | Except.ok none => (Except.error PyErr.typeError, c.2)
    | Except.ok (some r) =>
      match pyGet r 0 with
      | Except.error e => (Except.error e, c.2)
      | Except.ok v =>
        if v ≠ 0 then
          (Except.error (PyErr.runtimeError "Failed to write data"), c.2)
        else
          (Except.ok true, c.2)

/-! Helper lemmas shared by the claim theorems. -/

/-- Reading a list back element by element over its whole index range
reproduces the list. -/
theorem range_map_getD (l : List Nat) :
    (List.range l.length).map (fun i => l.getD i 0) = l := by
  induction l with
  | nil => rfl
  | cons a t ih =>
    have hmc : List.map ((fun i => (a :: t).getD i 0) ∘ Nat.succ)
        (List.range t.length)
        = List.map (fun i => t.getD i 0) (List.range t.length) :=
      List.map_congr_left (fun i _ => rfl)
    rw [List.length_cons, List.range_succ_eq_map, List.map_cons, List.map_map,
      hmc, ih]
    rfl

/-- The frame built by the I2C encoder, read at offsets 5 and beyond, is the
payload followed by the checksum byte and the residual zero. -/
theorem send_command_frame_i2c_getD_shift (data : List Nat) (i : Nat) :
    (send_command_frame_i2c data).getD (5 + i) 0
      = (data ++ [ocomp data.sum, 0]).getD i 0 := by
  unfold send_command_frame_i2c
  rw [List.getD_append_right _ _ 0 (5 + i) (by simp)]
  norm_num

/-- The frame built by the SPI encoder, read at offsets 5 and beyond, is the
payload followed by the checksum byte, the postamble and the residual zero. -/
theorem send_command_frame_spi_getD_shift (data : List Nat) (i : Nat) :
    (send_command_frame_spi data).getD (5 + i) 0
      = (data ++ [ocomp data.sum, 0, 0]).getD i 0 := by
  unfold send_command_frame_spi
  rw [List.getD_append_right _ _ 0 (5 + i) (by simp)]
  norm_num

/-- C1: the spec round-trip law fails on the code: for every valid command
payload (2 ≤ len ≤ 254, i.e. data part at most 252 bytes), the frame built by
PN532_I2C.send_command is rejected by the response-parsing logic of
PN532_I2C.call_function — the parse returns None (at the payload-checksum
check, whose covered bytes sum to 255 mod 256, never 0), so the decode never
returns the original payload. Bytes requested beyond the end of the frame
are modelled as 0; the failing checksum only covers in-frame bytes, so the
result does not depend on that choice. -/
theorem decode_rejects_every_sent_frame (data : List Nat)
    (h2 : 2 ≤ data.length) (h255 : data.length < 255) :
    (decode_response (fun i => (send_command_frame_i2c data).getD i 0)).1
      = none := by
  have h0 : (send_command_frame_i2c data).getD 0 0 = 0 := rfl
  have h1 : (send_command_frame_i2c data).getD 1 0 = 0 := rfl
  have hs2 : (send_command_frame_i2c data).getD 2 0 = 255 := rfl
  have h3 : (send_command_frame_i2c data).getD 3 0 = data.length + 1 := rfl
  have h4 : (send_command_frame_i2c data).getD 4 0 = tcomp (data.length + 1) := rfl
  have hlcs : ((data.length + 1) + tcomp (data.length + 1)) % 256 = 0 := by
    unfold tcomp
    omega
  have hfun : (fun i => (send_command_frame_i2c data).getD (5 + i) 0)
      = fun i => (data ++ [ocomp data.sum, 0]).getD i 0 :=
    funext (send_command_frame_i2c_getD_shift data)
  have hlen : (data ++ [ocomp data.sum, 0]).length = data.length + 2 := by simp
  have hsum :
      (((List.range (data.length + 1 + 2)).map
        (fun i => (data ++ [ocomp data.sum, 0]).getD i 0)).take
          (data.length + 1 + 1)).sum % 256 = 255 := by
    rw [← List.map_take, List.take_range]
    have hmin : (data.length + 1 + 1) ⊓ (data.length + 1 + 2)
        = data.length + 2 := by
      omega
    rw [hmin, ← hlen, range_map_getD, List.sum_append]
    unfold ocomp
    simp
    omega
  unfold decode_response
  simp only [h0, h1, hs2, h3, h4, hfun, hlcs, hsum]
  norm_num

/-- C2: status of the three frame invariants on every frame built by
send_command (both the I2C and the SPI variant, whose first len+7 bytes
coincide): the length/length-checksum invariant holds; the payload-checksum
bytes sum to 255 mod 256 (not 0: the code writes the one's complement
`~checksum & 0xFF` instead of the two's complement); and the length field is
len(payload) + 1, not len(payload) (the code adds 1 for the direction byte
although the payload already contains it). -/
theorem send_command_frame_invariants (data : List Nat)
    (h255 : data.length < 255) :
    ((send_command_frame_i2c data).getD 3 0
        + (send_command_frame_i2c data).getD 4 0) % 256 = 0
    ∧ (data.sum + (send_command_frame_i2c data).getD (5 + data.length) 0) % 256
        = 255
    ∧ (send_command_frame_i2c data).getD 3 0 = data.length + 1
    ∧ ((send_command_frame_spi data).getD 3 0
        + (send_command_frame_spi data).getD 4 0) % 256 = 0
    ∧ (data.sum + (send_command_frame_spi data).getD (5 + data.length) 0) % 256
        = 255
    ∧ (send_command_frame_spi data).getD 3 0 = data.length + 1 := by
  have hca : (send_command_frame_i2c data).getD (5 + data.length) 0
      = ocomp data.sum := by
    rw [send_command_frame_i2c_getD_shift data data.length,
      List.getD_append_right data _ 0 data.length (le_refl _)]
    simp
  have hb : (send_command_frame_spi data).getD (5 + data.length) 0
      = ocomp data.sum := by
    rw [send_command_frame_spi_getD_shift data data.length,
      List.getD_append_right data _ 0 data.length (le_refl _)]
    simp
  have h3 : (send_command_frame_i2c data).getD 3 0 = data.length + 1 := rfl
  have h4 : (send_command_frame_i2c data).getD 4 0 = tcomp (data.length + 1) := rfl
  have h3s : (send_command_frame_spi data).getD 3 0 = data.length + 1 := rfl
  have h4s : (send_command_frame_spi data).getD 4 0 = tcomp (data.length + 1) := rfl
  refine ⟨?_, ?_, h3, ?_, ?_, h3s⟩
  · rw [h3, h4]; unfold tcomp; omega
  · rw [hca]; unfold ocomp; omega
  · rw [h3s, h4s]; unfold tcomp; omega
  · rw [hb]; unfold ocomp; omega

/-- Witness for C1 at the GetFirmwareVersion payload [0xD4, 0x02]. -/
theorem decode_rejects_every_sent_frame_witness :
    (2 ≤ ([0xD4, 0x02] : List Nat).length ∧ ([0xD4, 0x02] : List Nat).length < 255)
    ∧ (decode_response
        (fun i => (send_command_frame_i2c [0xD4, 0x02]).getD i 0)).1 = none :=
  ⟨by decide, decode_rejects_every_sent_frame [0xD4, 0x02] (by decide) (by decide)⟩

/-- Witness for C2 at the GetFirmwareVersion payload [0xD4, 0x02]: the frame
built is 00 00 FF 03 FD D4 02 29 00, whereas the repository's own known-good
hard-coded frame for this command (pn532_enhanced.py line 78) is
00 00 FF 02 FE D4 02 2A 00. -/
theorem send_command_frame_invariants_witness :
    ([0xD4, 0x02] : List Nat).length < 255
    ∧ (([0xD4, 0x02] : List Nat).sum
        + (send_command_frame_i2c [0xD4, 0x02]).getD (5 + 2) 0) % 256 = 255
    ∧ (send_command_frame_i2c [0xD4, 0x02]).getD 3 0 = 3 :=
  ⟨by decide,
    (send_command_frame_invariants [0xD4, 0x02] (by decide)).2.1,
    (send_command_frame_invariants [0xD4, 0x02] (by decide)).2.2.1⟩

/-- C3 counterexample: the ACK check is not an exact comparison against a
single fixed 6-byte constant. Two distinct 6-byte sequences are both
accepted, so whatever the fixed ACK constant is, at least one accepted
sequence differs from it in some position; with such a non-ACK sequence on
the bus the call proceeds to the response phase (a response-header read is
performed). -/
theorem ack_check_accepts_distinct_sequences :
    ack_check [0, 0, 255, 0, 255, 0] = true
    ∧ ack_check [0, 0, 255, 1, 2, 3] = true
    ∧ ([0, 0, 255, 1, 2, 3] : List Nat) ≠ [0, 0, 255, 0, 255, 0]
    ∧ TOp.read 3 ∈ (call_function_i2c 0x02 []
        ⟨true, true, true, fun i => [0, 0, 255, 1, 2, 3].getD i 0⟩).2 := by
  refine ⟨rfl, rfl, by decide, ?_⟩
  decide

/-- C3 amended: the ACK validation inspects only the first three bytes. A
6-byte sequence is accepted exactly when its first three bytes are
0x00 0x00 0xFF; when they are not, call_function fails (returns None) and
never proceeds to the response phase — no read after the 6-byte ACK read. -/
theorem ack_check_only_first_three_bytes :
    (∀ a : List Nat,
      ack_check a = true
        ↔ (a.getD 0 0 = 0 ∧ a.getD 1 0 = 0 ∧ a.getD 2 0 = 255))
    ∧ (∀ (command : Nat) (params : List Nat) (o : DevOracle),
      params.length < 253 → o.sendOk = true → o.ackReady = true →
      ack_check ((List.range 6).map o.src) = false →
      call_function_i2c command params o
        = (Except.ok none,
          [TOp.write (send_command_frame_i2c (0xD4 :: command % 256 :: params)),
            TOp.poll, TOp.read 6])) := by
  constructor
  · intro a
    unfold ack_check
    exact decide_eq_true_iff
  · intro command params o hlen hs ha hack
    have hlc : (0xD4 :: command % 256 :: params : List Nat).length
        = params.length + 2 := by simp
    have hc : 1 < (0xD4 :: command % 256 :: params : List Nat).length
        ∧ (0xD4 :: command % 256 :: params : List Nat).length < 255 := by
      rw [hlc]
      omega
    simp [call_function_i2c, hc, hs, ha, hack]
    omega

/-- Witness for the C3 amended theorem: a 6-byte sequence with a wrong first
byte is rejected, and with it on the bus the engine stops after the ACK
read. -/
theorem ack_check_only_first_three_bytes_witness :
    ack_check [7, 7, 7, 7, 7, 7] = false
    ∧ call_function_i2c 0x02 [] ⟨true, true, true, fun _ => 7⟩
      = (Except.ok none,
        [TOp.write (send_command_frame_i2c (0xD4 :: 0x02 % 256 :: [])),
          TOp.poll, TOp.read 6]) :=
  ⟨rfl,
    ack_check_only_first_three_bytes.2 0x02 [] ⟨true, true, true, fun _ => 7⟩
      (by decide) rfl rfl rfl⟩

/-- C4: the claim fails on the code. In the SPI variant, whenever the
response phase is reached and the three header bytes read pass the
00 00 FF check, the subsequent access to the length field frame[3] is out
of bounds — the header transfer yields exactly three bytes — so the parse
raises IndexError instead of staying within the bytes actually read. -/
theorem spi_response_header_read_out_of_bounds :
    ∀ (response_length : Nat) (src src2 : Nat → Nat),
      src 0 = 0 → src 1 = 0 → src 2 = 255 →
      spi_response_phase response_length src src2
        = Except.error PyErr.indexError := by
  intro rl src src2 h0 h1 h2
  unfold spi_response_phase
  rw [h0, h1, h2]
  rfl

/-- Witness for C4 at the header bytes 00 00 FF. -/
theorem spi_response_header_read_out_of_bounds_witness :
    (fun i => [0, 0, 255].getD i 0) 0 = 0
    ∧ spi_response_phase 20 (fun i => [0, 0, 255].getD i 0) (fun _ => 0)
      = Except.error PyErr.indexError :=
  ⟨rfl, spi_response_header_read_out_of_bounds 20
    (fun i => [0, 0, 255].getD i 0) (fun _ => 0) rfl rfl rfl⟩

/-- C5: ListPassiveTarget decoding: a decoded response with target-count
byte 2 fails with the more-than-one-target error; a UID-length byte of 8
fails with the UID-too-long error; a UID-length byte of 4 followed by four
UID bytes returns exactly those four bytes (response[6:6+4]). -/
theorem read_passive_target_decode_spec :
    (∀ r : List Nat, r[0]? = some 2 →
      read_passive_target_decode (some r)
        = Except.error (PyErr.runtimeError "More than one card detected!"))
    ∧ (∀ r : List Nat, r[0]? = some 1 → r[5]? = some 8 →
      read_passive_target_decode (some r)
        = Except.error (PyErr.runtimeError "Found card with unexpectedly long UID!"))
    ∧ (∀ (b1 b2 b3 b4 u1 u2 u3 u4 : Nat) (rest : List Nat),
      read_passive_target_decode
          (some (1 :: b1 :: b2 :: b3 :: b4 :: 4 :: u1 :: u2 :: u3 :: u4 :: rest))
        = Except.ok (some [u1, u2, u3, u4])) := by
  refine ⟨?_, ?_, ?_⟩
  · intro r h
    simp [read_passive_target_decode, pyGet, h]
  · intro r h0 h5
    simp [read_passive_target_decode, pyGet, h0, h5]
  · intro b1 b2 b3 b4 u1 u2 u3 u4 rest
    rfl

/-- Witness for C5 at three concrete decoded responses. -/
theorem read_passive_target_decode_spec_witness :
    ([2, 0, 0, 0, 0, 4] : List Nat)[0]? = some 2
    ∧ read_passive_target_decode (some [2, 0, 0, 0, 0, 4])
      = Except.error (PyErr.runtimeError "More than one card detected!")
    ∧ read_passive_target_decode (some [1, 0, 0, 0, 0, 8])
      = Except.error (PyErr.runtimeError "Found card with unexpectedly long UID!")
    ∧ read_passive_target_decode (some [1, 0, 0, 0, 0, 4, 222, 173, 190, 239])
      = Except.ok (some [222, 173, 190, 239]) :=
  ⟨rfl,
    read_passive_target_decode_spec.1 [2, 0, 0, 0, 0, 4] rfl,
    read_passive_target_decode_spec.2.1 [1, 0, 0, 0, 0, 8] rfl rfl,
    read_passive_target_decode_spec.2.2 0 0 0 0 222 173 190 239 []⟩

/-- C6: FirmwareVersion decoding: the well-formed 4-byte response
[0x32, 0x01, 0x06, 0x07] decodes to (IC, version, revision, support) =
(0x32, 1, 6, 7); a response of fewer than 4 bytes makes the operation fail
(IndexError on the missing element, no partial tuple is returned), and an
absent response fails with the RuntimeError. -/
theorem get_firmware_version_decode_spec :
    get_firmware_version_decode (some [0x32, 0x01, 0x06, 0x07])
      = Except.ok (0x32, 1, 6, 7)
    ∧ (∀ r : List Nat, r.length < 4 →
      get_firmware_version_decode (some r) = Except.error PyErr.indexError)
    ∧ get_firmware_version_decode none
      = Except.error (PyErr.runtimeError "Failed to get firmware version!") := by
  refine ⟨rfl, ?_, rfl⟩
  intro r h
  rcases r with _ | ⟨a, _ | ⟨b, _ | ⟨c, _ | ⟨d, t⟩⟩⟩⟩
  · rfl
  · rfl
  · rfl
  · rfl
  · simp [List.length_cons] at h
    omega

/-- Witness for C6 at a 3-byte response. -/
theorem get_firmware_version_decode_spec_witness :
    ([0x32, 0x01, 0x06] : List Nat).length < 4
    ∧ get_firmware_version_decode (some [0x32, 0x01, 0x06])
      = Except.error PyErr.indexError :=
  ⟨by decide, get_firmware_version_decode_spec.2.1 [0x32, 0x01, 0x06] (by decide)⟩

/-- C7: the block-write operations fail fast on bad arguments with an empty
transport trace: write_mifare with a data length other than 16, and
write_ntag2xx with a data length other than 4 or a block number outside the
user range 4..129, fail before any transport operation is recorded. -/
theorem write_guards_fail_before_transport :
    (∀ (block_number : Nat) (data : List Nat) (key_number : Nat)
        (key : List Nat) (os : Nat → DevOracle), data.length ≠ 16 →
      write_mifare block_number data key_number key os
        = (Except.error (PyErr.assertionError "Data must be an array of 16 bytes!"),
          []))
    ∧ (∀ (block_number : Nat) (data : List Nat) (os : Nat → DevOracle),
        data.length ≠ 4 →
      write_ntag2xx block_number data os
        = (Except.error (PyErr.assertionError "Data must be an array of 4 bytes!"),
          []))
    ∧ (∀ (block_number : Nat) (data : List Nat) (os : Nat → DevOracle),
        data.length = 4 → (block_number < 4 ∨ 129 < block_number) →
      write_ntag2xx block_number data os
        = (Except.error (PyErr.runtimeError "Block must be user block4..129"),
          [])) := by
  refine ⟨?_, ?_, ?_⟩
  · intro bn data kn key os h
    have hc : ¬ (data ≠ [] ∧ data.length = 16) := fun hh => h hh.2
    unfold write_mifare
    rw [if_pos hc]
  · intro bn data os h
    have hc : ¬ (data ≠ [] ∧ data.length = 4) := fun hh => h hh.2
    unfold write_ntag2xx
    rw [if_pos hc]
  · intro bn data os h4 hb
    have hne : data ≠ [] := by
      intro he
      rw [he] at h4
      simp at h4
    have hc : ¬ ¬ (data ≠ [] ∧ data.length = 4) := not_not_intro ⟨hne, h4⟩
    unfold write_ntag2xx
    rw [if_neg hc, if_pos hb]

/-- Witness for C7 at concrete bad arguments. -/
theorem write_guards_fail_before_transport_witness :
    ([1, 2, 3] : List Nat).length ≠ 16
    ∧ write_mifare 0 [1, 2, 3] 0 [] (fun _ => ⟨true, true, true, fun _ => 0⟩)
      = (Except.error (PyErr.assertionError "Data must be an array of 16 bytes!"),
        [])
    ∧ write_ntag2xx 0 [1, 2, 3] (fun _ => ⟨true, true, true, fun _ => 0⟩)
      = (Except.error (PyErr.assertionError "Data must be an array of 4 bytes!"),
        [])
    ∧ write_ntag2xx 130 [1, 2, 3, 4] (fun _ => ⟨true, true, true, fun _ => 0⟩)
      = (Except.error (PyErr.runtimeError "Block must be user block4..129"),
        []) :=
  ⟨by decide,
    write_guards_fail_before_transport.1 0 [1, 2, 3] 0 []
      (fun _ => ⟨true, true, true, fun _ => 0⟩) (by decide),
    write_guards_fail_before_transport.2.1 0 [1, 2, 3]
      (fun _ => ⟨true, true, true, fun _ => 0⟩) (by decide),
    write_guards_fail_before_transport.2.2 130 [1, 2, 3, 4]
      (fun _ => ⟨true, true, true, fun _ => 0⟩) rfl (by decide)⟩

/-- C8: ACK-phase timeout: when the readiness wait before the ACK read
reports not-ready, call_function returns the None failure and the trace
records only the frame write and the poll — no transport read is
attempted. -/
theorem call_function_ack_timeout_no_read :
    ∀ (command : Nat) (params : List Nat) (o : DevOracle),
      params.length < 253 → o.sendOk = true → o.ackReady = false →
      call_function_i2c command params o
        = (Except.ok none,
          [TOp.write (send_command_frame_i2c (0xD4 :: command % 256 :: params)),
            TOp.poll])
      ∧ ∀ n, TOp.read n ∉ (call_function_i2c command params o).2 := by
  intro command params o hlen hs ha
  have hlc : (0xD4 :: command % 256 :: params : List Nat).length
      = params.length + 2 := by simp
  have hc : 1 < (0xD4 :: command % 256 :: params : List Nat).length
      ∧ (0xD4 :: command % 256 :: params : List Nat).length < 255 := by
    rw [hlc]
    omega
  have heq : call_function_i2c command params o
      = (Except.ok none,
        [TOp.write (send_command_frame_i2c (0xD4 :: command % 256 :: params)),
          TOp.poll]) := by
    simp [call_function_i2c, hc, hs, ha]
    omega
  refine ⟨heq, ?_⟩
  intro n
  rw [heq]
  simp

/-- Witness for C8 with an oracle whose ACK wait times out. -/
theorem call_function_ack_timeout_no_read_witness :
    call_function_i2c 0x02 [] ⟨true, false, true, fun _ => 0⟩
      = (Except.ok none,
        [TOp.write (send_command_frame_i2c (0xD4 :: 0x02 % 256 :: ([] : List Nat))),
          TOp.poll])
    ∧ TOp.read 6 ∉ (call_function_i2c 0x02 [] ⟨true, false, true, fun _ => 0⟩).2 :=
  ⟨(call_function_ack_timeout_no_read 0x02 [] ⟨true, false, true, fun _ => 0⟩
      (by decide) rfl rfl).1,
    (call_function_ack_timeout_no_read 0x02 [] ⟨true, false, true, fun _ => 0⟩
      (by decide) rfl rfl).2 6⟩

/-- Does a trace entry record a frame-write attempt. -/
def TOp.isWrite : TOp → Bool
  | TOp.write _ => true
  | _ => false

/-- The response-parsing phase performs reads only, never a write. -/
theorem decode_response_trace_countP_write (src : Nat → Nat) :
    (decode_response src).2.countP TOp.isWrite = 0 := by
  unfold decode_response
  split_ifs <;>
    simp [List.countP_cons, List.countP_nil, TOp.isWrite, apply_ite]

/-- C9: when the transport write of the command frame fails (OSError in
send_command), call_function performs the wake-up exactly once and then
terminates with the None failure — the trace is exactly the attempted write
followed by one wake; and on every path, for every device behaviour, the
engine attempts the send at most once (no internal retry). -/
theorem call_function_send_failure_single_attempt :
    (∀ (command : Nat) (params : List Nat) (o : DevOracle),
      params.length < 253 → o.sendOk = false →
      call_function_i2c command params o
        = (Except.ok none,
          [TOp.write (send_command_frame_i2c (0xD4 :: command % 256 :: params)),
            TOp.wake]))
    ∧ (∀ (command : Nat) (params : List Nat) (o : DevOracle),
      (call_function_i2c command params o).2.countP TOp.isWrite ≤ 1) := by
  constructor
  · intro command params o hlen hs
    have hlc : (0xD4 :: command % 256 :: params : List Nat).length
        = params.length + 2 := by simp
    have hc : 1 < (0xD4 :: command % 256 :: params : List Nat).length
        ∧ (0xD4 :: command % 256 :: params : List Nat).length < 255 := by
      rw [hlc]
      omega
    simp [call_function_i2c, hc, hs]
    omega
  · intro command params o
    unfold call_function_i2c
    split_ifs <;>
      simp [List.countP_cons, List.countP_nil, List.countP_append, TOp.isWrite,
        decode_response_trace_countP_write, apply_ite] <;>
      split_ifs <;> simp

/-- Witness for C9 with an oracle whose frame write raises OSError. -/
theorem call_function_send_failure_single_attempt_witness :
    call_function_i2c 0x02 [] ⟨false, true, true, fun _ => 0⟩
      = (Except.ok none,
        [TOp.write (send_command_frame_i2c (0xD4 :: 0x02 % 256 :: ([] : List Nat))),
          TOp.wake])
    ∧ (call_function_i2c 0x02 [] ⟨false, true, true, fun _ => 0⟩).2.countP
        TOp.isWrite ≤ 1 :=
  ⟨call_function_send_failure_single_attempt.1 0x02 []
      ⟨false, true, true, fun _ => 0⟩ (by decide) rfl,
    call_function_send_failure_single_attempt.2 0x02 []
      ⟨false, true, true, fun _ => 0⟩⟩

/-- Device oracle producing a complete successful ListPassiveTarget
exchange: a valid ACK (00 00 FF 00 FF 00), then a well-formed response frame
whose decoded payload is [0x01, 0, 0, 0, 0, 4, 1, 2, 3, 4] — one target
with a 4-byte UID 01 02 03 04. -/
def okListOracle : DevOracle :=
  ⟨true, true, true, fun i =>
    ([0, 0, 255, 0, 255, 0]
      ++ [0, 0, 255, 11, 245, 213, 1, 0, 0, 0, 0, 4, 1, 2, 3, 4, 28, 0]).getD i 0⟩

/-- Device oracle whose ACK-phase readiness wait times out, making
call_function return the no-response result None. -/
def ackTimeoutOracle : DevOracle := ⟨true, false, true, fun _ => 0⟩

/-- C10: the claim fails on the code. With a successful card discovery
followed by an ACK timeout on the InDataExchange call (call_function
returns None), read_mifare and write_mifare evaluate `response[0]` on the
absent response and terminate with a TypeError — not with the typed
RuntimeError their docstrings declare. -/
theorem mifare_none_response_typeerror :
    (read_mifare 4 0 []
        (fun n => if n = 0 then okListOracle else ackTimeoutOracle)).1
      = Except.error PyErr.typeError
    ∧ (write_mifare 4 [0, 0, 0, 0, 0, 0, 0, 0, 0, 0, 0, 0, 0, 0, 0, 0] 0 []
        (fun n => if n = 0 then okListOracle else ackTimeoutOracle)).1
      = Except.error PyErr.typeError := by
  constructor
  · rfl
  · rfl

end PN532
